import Mathlib

/-!
Verification development for the kobo-article-helper image pipeline
(`src/image_utils.py` and `src/mail_processor.py`).

The Python source is shallowly embedded:
* regex scanning over tag text becomes explicit leftmost-match search over
  `List Char` (`searchAttrQuoted` models `re.search(attr=["'](\d+))`,
  `searchAttrStyle` models `re.search(attr:\s*(\d+)px)`, both IGNORECASE);
* the PIL / numpy / imagehash / requests layer becomes an explicit
  environment `PipelineEnv` of functions (a `none` result models a raised
  exception at that call site);
* the module-global `seen_hashes` dict becomes an association list threaded
  through `download_and_convert_thumbnail`;
* the single `try/except` wrapping the whole download function is embedded
  by making every failure path return an explicit `AcquireResult`.
-/

/-- Case-insensitive "pattern is a prefix of text" over character lists;
models how `re.IGNORECASE` matches a literal attribute name. -/
def startsWithCI : List Char → List Char → Bool
  | [], _ => true
  | _ :: _, [] => false
  | p :: ps, c :: cs => (p.toLower = c.toLower) && startsWithCI ps cs

/-- Case-sensitive prefix test, used for Python's `in` substring operator. -/
def startsWithCS : List Char → List Char → Bool
  | [], _ => true
  | _ :: _, [] => false
  | p :: ps, c :: cs => (p = c) && startsWithCS ps cs

/-- Python's case-sensitive substring operator `pat in s`. -/
def containsSub (pat : List Char) : List Char → Bool
  | [] => startsWithCS pat []
  | s@(_ :: tl) => startsWithCS pat s || containsSub pat tl

/-- Value of a nonempty decimal digit run, as Python's `int(...)` computes it. -/
def digitsVal (ds : List Char) : Nat :=
  ds.foldl (fun a c => 10 * a + (c.toNat - 48)) 0

/-- The characters matched by the regex class `\s` (ASCII range). -/
def isSpaceRe (c : Char) : Bool :=
  c = ' ' || c = '\t' || c = '\n' || c.toNat = 13 || c.toNat = 11 || c.toNat = 12

/-- Try the pattern `attr=["'](\d+)` at the head of `s` (attr case-insensitive);
`(\d+)` is greedy, so the captured digits are the maximal digit run. -/
def tryAttrQuoted (attr : List Char) (s : List Char) : Option Nat :=
  if startsWithCI attr s then
    match s.drop attr.length with
    | c :: rest =>
      if c = '=' then
        match rest with
        | q :: rest2 =>
          if q = '"' || q.toNat = 39 then
            let ds := rest2.takeWhile Char.isDigit
            if ds.isEmpty then none else some (digitsVal ds)
          else none
        | [] => none
      else none
    | [] => none
  else none

/-- Leftmost match of `attr=["'](\d+)`, as `re.search` scans left to right. -/
def searchAttrQuoted (attr : List Char) : List Char → Option Nat
  | [] => tryAttrQuoted attr []
  | s@(_ :: tl) =>
    match tryAttrQuoted attr s with
    | some n => some n
    | none => searchAttrQuoted attr tl

/-- Try the pattern `attr:\s*(\d+)px` at the head of `s` (case-insensitive). -/
def tryAttrStyle (attr : List Char) (s : List Char) : Option Nat :=
  if startsWithCI attr s then
    match s.drop attr.length with
    | c :: rest =>
      if c = ':' then
        let rest2 := rest.dropWhile isSpaceRe
        let ds := rest2.takeWhile Char.isDigit
        if ds.isEmpty then none
        else
          match rest2.drop ds.length with
          | p :: x :: _ =>
            if p.toLower = 'p' && x.toLower = 'x' then some (digitsVal ds) else none
          | _ => none
      else none
    | [] => none
  else none

/-- Leftmost match of `attr:\s*(\d+)px`. -/
def searchAttrStyle (attr : List Char) : List Char → Option Nat
  | [] => none
  | s@(_ :: tl) =>
    match tryAttrStyle attr s with
    | some n => some n
    | none => searchAttrStyle attr tl

/-- `get_html_attr_val(tag, attr)` from `image_utils.py`: first the normal
attribute form `attr="N`, then the inline-style form `attr: Npx`. -/
def get_html_attr_val (tag attr : String) : Option Nat :=
  match searchAttrQuoted attr.data tag.data with
  | some n => some n
  | none => searchAttrStyle attr.data tag.data

/-- `is_avatar_tag(full_tag)` from `image_utils.py`: circular border-radius,
or a parsed width/height below 100. -/
def is_avatar_tag (full_tag : String) : Bool :=
  if containsSub "border-radius".data full_tag.data && containsSub "50%".data full_tag.data then
    true
  else
    let w := get_html_attr_val full_tag "width"
    let h := get_html_attr_val full_tag "height"
    (match w with
     | some n => decide (n < 100)
     | none => false) ||
    (match h with
     | some n => decide (n < 100)
     | none => false)

/-- `is_bad_aspect_ratio(width, height)` from `image_utils.py`; Python's float
division of the two int dimensions is modelled exactly over ℚ. -/
def is_bad_aspect_ratio (width height : Nat) (min_ratio : ℚ := 1/10) (max_ratio : ℚ := 10) : Bool :=
  if height = 0 then true
  else
    let ratio : ℚ := (width : ℚ) / (height : ℚ)
    decide (ratio < min_ratio) || decide (max_ratio < ratio)

/-- `is_overcompressed(file_size, width, height)` from `image_utils.py`;
the byte/pixel ratio is modelled exactly over ℚ. -/
def is_overcompressed (file_size width height : Nat) (threshold : ℚ := 1/100) : Bool :=
  let pixel_count := width * height
  if pixel_count = 0 then true
  else decide ((file_size : ℚ) / (pixel_count : ℚ) < threshold)

/-- Outcome of `requests.get` + `raise_for_status` in
`download_and_convert_thumbnail`: `fail` models a timeout, connection error
or a raised 4xx/5xx status; `ok` carries the response body bytes. -/
inductive FetchResult where
  | fail
  | ok (content : String)
deriving DecidableEq

/-- A decoded PIL image: abstract pixel buffer plus the attributes the
pipeline reads (`img.mode`, `img.format`, `img.size`). -/
structure Image where
  pix : String
  mode : String
  format : String
  width : Nat
  height : Nat
deriving DecidableEq

/-- The external library layer (requests / PIL / numpy / imagehash / disk)
as explicit functions; a `none` result models an exception raised at that
call site.  `lumStd` is `np.array(img.convert("L")).std()`, `phash` is
`str(imagehash.phash(img))`, `toRGBA` / `toRGB` are `img.convert(...)`,
`flattenAlpha` is the paste-onto-black-background compositing, `saveOk`
says whether `img.save(...)` succeeds. -/
structure PipelineEnv where
  fetch : String → FetchResult
  decode : String → Option Image
  phash : String → Option String
  lumStd : String → Option ℚ
  toRGBA : String → String
  toRGB : String → String
  flattenAlpha : String → String
  saveOk : Bool

/-- `is_low_color_variance(img)` from `image_utils.py`: the whole numpy
computation is wrapped in `try/except` returning `False` on exception. -/
def is_low_color_variance (env : PipelineEnv) (img : Image) (threshold : ℚ := 5) : Bool :=
  match env.lumStd img.pix with
  | none => false
  | some s => decide (s < threshold)

/-- First-match association-list lookup, modelling `dict.get` on
`seen_hashes` (registration prepends, so the first match is the newest). -/
def cacheLookup (key : String) : List (String × String) → Option String
  | [] => none
  | e :: rest => if e.1 = key then some e.2 else cacheLookup key rest

/-- `is_duplicate(img, target_format)` from `image_utils.py`: perceptual
hash of the decoded image, composite key `hash_format`, `try/except`
returning `None` on hash failure. -/
def is_duplicate (env : PipelineEnv) (img : Image) (target_format : String)
    (cache : List (String × String)) : Option String :=
  match env.phash img.pix with
  | none => none
  | some h => cacheLookup (h ++ "_" ++ target_format) cache

/-- `register_image_hash(img, filename, target_format)` from
`image_utils.py`: best-effort registration, no-op on hash failure. -/
def register_image_hash (env : PipelineEnv) (img : Image) (filename target_format : String)
    (cache : List (String × String)) : List (String × String) :=
  match env.phash img.pix with
  | none => cache
  | some h => (h ++ "_" ++ target_format, filename) :: cache

/-- The format-conversion block (step 6 of the source function): JPEG
targets flatten any alpha onto a black background, PNG targets keep RGBA
where present and force RGB otherwise. -/
def convert_for_target (env : PipelineEnv) (img : Image) (target_format : String) : Image :=
  if target_format = "JPEG" then
    if img.mode = "RGBA" ∨ img.mode = "P" ∨ img.mode = "LA" then
      { img with pix := env.flattenAlpha (env.toRGBA img.pix), mode := "RGB" }
    else
      { img with pix := env.toRGB img.pix, mode := "RGB" }
  else
    if img.mode = "RGBA" ∨ img.mode = "P" then
      { img with pix := env.toRGBA img.pix, mode := "RGBA" }
    else
      { img with pix := env.toRGB img.pix, mode := "RGB" }

/-- Observable outcome of one `download_and_convert_thumbnail` call:
the returned pair `(fileId, srcFmt)`, the `seen_hashes` cache after the
call, and the file written to disk (if any). -/
structure AcquireResult where
  fileId : Option String
  srcFmt : Option String
  cache : List (String × String)
  wrote : Option String
deriving DecidableEq

/-- Tail of `download_and_convert_thumbnail` (convert, build the UUID
filename, save, register).  Split out because the Python duplicate check
`if dup_filename:` falls through on an empty cached name (truthiness).
A save exception escapes to the function's single `except` and yields
`(None, None)` with no registration. -/
def encode_and_save (env : PipelineEnv) (uuid : String) (img : Image)
    (target_format : String) (cache : List (String × String)) : AcquireResult :=
  let converted := convert_for_target env img target_format
  let ext := if target_format = "JPEG" then "jpg" else "png"
  let filename := uuid ++ "." ++ ext
  if env.saveOk then
    ⟨some filename, some img.format,
      register_image_hash env converted filename target_format cache, some filename⟩
  else
    ⟨none, none, cache, none⟩

/-- `download_and_convert_thumbnail(img_url, target_format)` from
`image_utils.py`, with the fresh `uuid.uuid4()` string and the
`seen_hashes` state passed explicitly.  The function body's single
`try/except Exception` is embedded by totality: every failure path is an
explicit `AcquireResult`. -/
def download_and_convert_thumbnail (env : PipelineEnv) (uuid : String) (img_url : String)
    (target_format : String) (cache : List (String × String)) : AcquireResult :=
  match env.fetch img_url with
  | FetchResult.fail => ⟨none, none, cache, none⟩
  | FetchResult.ok content =>
    match env.decode content with
    | none => ⟨none, none, cache, none⟩
    | some img =>
      if img.width < 100 ∨ img.height < 100 then
        ⟨none, some img.format, cache, none⟩
      else if is_bad_aspect_ratio img.width img.height then
        ⟨none, some img.format, cache, none⟩
      else if is_low_color_variance env img then
        ⟨none, some img.format, cache, none⟩
      else if is_overcompressed content.length img.width img.height then
        ⟨none, some img.format, cache, none⟩
      else
        match is_duplicate env img target_format cache with
        | some dup =>
          if dup = "" then encode_and_save env uuid img target_format cache
          else ⟨some dup, some img.format, cache, none⟩
        | none => encode_and_save env uuid img target_format cache

/-- All four quality gates of the source function pass for a decoded image
with the given downloaded byte length. -/
def passes_gates (env : PipelineEnv) (img : Image) (byte_len : Nat) : Bool :=
  !(decide (img.width < 100 ∨ img.height < 100)) &&
  !(is_bad_aspect_ratio img.width img.height) &&
  !(is_low_color_variance env img) &&
  !(is_overcompressed byte_len img.width img.height)

/-- The avatar pre-scan of `process_message` in `mail_processor.py`, over the
scanner's match list (raw tag text, src URL): every URL one of whose
occurrences satisfies `is_avatar_tag` is blacklisted.  The Python `set` is
modelled as a list queried by membership. -/
def avatar_url_blacklist (ms : List (String × String)) : List String :=
  (ms.filter fun m => is_avatar_tag m.1).map Prod.snd

/-- Per-tag outcome of the body rewriting callback `body_img_processor`:
the tag is removed (callback returns `""`), kept with a body-mapping entry
added, or kept unchanged as a possibly-transient download failure. -/
inductive BodyDecision where
  | removed
  | keptMapped
  | keptOriginal
deriving DecidableEq

/-- `body_img_processor(match)` from `mail_processor.py`; `thumb` is the
memoized `get_thumb(url, 'JPEG')` returning the acquire pair
`(fileId, srcFmt)`.  Note: it applies `is_avatar_tag` to the occurrence's
own tag text and never consults the avatar blacklist. -/
def body_img_processor (thumb : String → Option String × Option String)
    (full_tag img_url : String) : BodyDecision :=
  if is_avatar_tag full_tag then BodyDecision.removed
  else
    match thumb img_url with
    | (some _, _) => BodyDecision.keptMapped
    | (none, some _) => BodyDecision.removed
    | (none, none) => BodyDecision.keptOriginal

/-- Fallback cover search of `process_message`: first body URL that is not
blacklisted and whose PNG acquisition succeeds; returns the chosen URL and
its file id. -/
def select_cover_fallback (thumb : String → Option String) (bl : List String) :
    List String → Option (String × String)
  | [] => none
  | u :: rest =>
    if u ∈ bl then select_cover_fallback thumb bl rest
    else
      match thumb u with
      | some f => some (u, f)
      | none => select_cover_fallback thumb bl rest

/-- Cover-image selection of `process_message`: the og:image URL if present,
not blacklisted and successfully acquired as PNG, else the body fallback.
`thumb` is the memoized `get_thumb(url, 'PNG')` file-id component. -/
def select_cover (thumb : String → Option String) (og_url : Option String)
    (urls : List String) (bl : List String) : Option (String × String) :=
  let fromOg :=
    match og_url with
    | some u =>
      if u ∈ bl then none
      else
        match thumb u with
        | some f => some (u, f)
        | none => none
    | none => none
  match fromOg with
  | some r => some r
  | none => select_cover_fallback thumb bl urls

/-- Environment for concrete instantiations: a 50×200 decoded PNG, so the
size gate fires. -/
def envSmall : PipelineEnv :=
{ fetch := fun _ => FetchResult.ok "bytes",
  decode := fun _ => some ⟨"px", "RGB", "PNG", 50, 200⟩,
  phash := fun _ => some "h",
  lumStd := fun _ => some 50,
  toRGBA := id, toRGB := id, flattenAlpha := id,
  saveOk := true }

/-- Environment whose fetch always fails (network error / bad status). -/
def envNetFail : PipelineEnv :=
{ fetch := fun _ => FetchResult.fail,
  decode := fun _ => none,
  phash := fun _ => none,
  lumStd := fun _ => none,
  toRGBA := id, toRGB := id, flattenAlpha := id,
  saveOk := true }

/-- Environment whose fetch succeeds but whose bytes fail to decode. -/
def envNoDecode : PipelineEnv :=
{ fetch := fun _ => FetchResult.ok "junk",
  decode := fun _ => none,
  phash := fun _ => none,
  lumStd := fun _ => none,
  toRGBA := id, toRGB := id, flattenAlpha := id,
  saveOk := true }

/-- C1: if the fetch succeeds and the bytes decode to an image whose width
or height is below 100, `download_and_convert_thumbnail` returns an absent
file id together with the decoded image's true source format label, adds
nothing to the hash cache and writes no file. -/
theorem c1_small_image_returns_format_label
    (env : PipelineEnv) (uuid url target : String) (cache : List (String × String))
    (content : String) (img : Image)
    (hf : env.fetch url = FetchResult.ok content)
    (hd : env.decode content = some img)
    (hsmall : img.width < 100 ∨ img.height < 100) :
    download_and_convert_thumbnail env uuid url target cache =
      ⟨none, some img.format, cache, none⟩ := by
  simp only [download_and_convert_thumbnail, hf, hd]
  rw [if_pos hsmall]

/-- C1 witness: a 50×200 PNG is rejected by the size gate with the label
"PNG" preserved. -/
theorem c1_witness :
    download_and_convert_thumbnail envSmall "u1" "http://x/a" "PNG" [] =
      ⟨none, some "PNG", [], none⟩ :=
  c1_small_image_returns_format_label envSmall "u1" "http://x/a" "PNG" []
    "bytes" ⟨"px", "RGB", "PNG", 50, 200⟩ rfl rfl (Or.inl (by decide))

/-- C2: the embedding of `download_and_convert_thumbnail` is a total
function (the source wraps its whole body in one `try/except Exception`,
so no exception reaches the caller), and on a network failure (timeout,
connection error, raised non-success status) or a decode failure it
returns the pair `(absent, absent)` with the cache untouched and no file
written. -/
theorem c2_failures_give_absent_pair
    (env : PipelineEnv) (uuid url target : String) (cache : List (String × String)) :
    (env.fetch url = FetchResult.fail →
       download_and_convert_thumbnail env uuid url target cache = ⟨none, none, cache, none⟩) ∧
    (∀ content, env.fetch url = FetchResult.ok content → env.decode content = none →
       download_and_convert_thumbnail env uuid url target cache = ⟨none, none, cache, none⟩) := by
  constructor
  · intro hf
    simp only [download_and_convert_thumbnail, hf]
  · intro content hf hd
    simp only [download_and_convert_thumbnail, hf, hd]

/-- C2 witness: a failing fetch and an undecodable body both yield
`(absent, absent)`. -/
theorem c2_witness :
    download_and_convert_thumbnail envNetFail "u1" "http://x/a" "PNG" [] =
      ⟨none, none, [], none⟩ ∧
    download_and_convert_thumbnail envNoDecode "u1" "http://x/a" "JPEG" [] =
      ⟨none, none, [], none⟩ :=
  ⟨(c2_failures_give_absent_pair envNetFail "u1" "http://x/a" "PNG" []).1 rfl,
   (c2_failures_give_absent_pair envNoDecode "u1" "http://x/a" "JPEG" []).2 "junk" rfl rfl⟩

/-- C8: `is_overcompressed` rejects exactly when the pixel count is zero or
the exact byte/pixel ratio is strictly below 1/100; at the boundary a
1000×1000 image of exactly 10000 bytes has ratio exactly 1/100 and is not
rejected. -/
theorem c8_overcompression_boundary :
    (∀ fs w h : Nat, is_overcompressed fs w h =
       (decide (w * h = 0) || decide ((fs : ℚ) / ((w * h : Nat) : ℚ) < 1 / 100))) ∧
    is_overcompressed 10000 1000 1000 = false := by
  constructor
  · intro fs w h
    unfold is_overcompressed
    by_cases hz : w * h = 0
    · simp [hz]
    · simp [hz]
  · unfold is_overcompressed
    norm_num

/-- C10: when the luminance standard-deviation computation raises (its
`try` block fails), `is_low_color_variance` returns `false`, so the
pipeline proceeds as if the variance check passed. -/
theorem c10_variance_failure_never_rejects
    (env : PipelineEnv) (img : Image) (threshold : ℚ)
    (h : env.lumStd img.pix = none) :
    is_low_color_variance env img threshold = false := by
  simp [is_low_color_variance, h]

/-- C10 witness: in an environment whose numpy layer always raises, the
variance predicate evaluates to `false` at the default threshold. -/
theorem c10_witness :
    envNetFail.lumStd "px" = none ∧
    is_low_color_variance envNetFail ⟨"px", "RGB", "PNG", 200, 200⟩ = false :=
  ⟨rfl, c10_variance_failure_never_rejects envNetFail ⟨"px", "RGB", "PNG", 200, 200⟩ 5 rfl⟩

/-- Helper: once fetch and decode succeed and all four quality gates pass,
`download_and_convert_thumbnail` reduces to the duplicate-check-or-save
tail of the source function. -/
theorem acquire_after_gates
    (env : PipelineEnv) (uuid url target : String) (cache : List (String × String))
    (content : String) (img : Image)
    (hf : env.fetch url = FetchResult.ok content)
    (hd : env.decode content = some img)
    (h1 : ¬(img.width < 100 ∨ img.height < 100))
    (h2 : is_bad_aspect_ratio img.width img.height = false)
    (h3 : is_low_color_variance env img = false)
    (h4 : is_overcompressed content.length img.width img.height = false) :
    download_and_convert_thumbnail env uuid url target cache =
      (match is_duplicate env img target cache with
       | some dup =>
         if dup = "" then encode_and_save env uuid img target cache
         else ⟨some dup, some img.format, cache, none⟩
       | none => encode_and_save env uuid img target cache) := by
  simp only [download_and_convert_thumbnail, hf, hd, h1, h2, h3, h4]
  simp

/-- Helper: the four components of `passes_gates`. -/
theorem passes_gates_elim
    (env : PipelineEnv) (img : Image) (byte_len : Nat)
    (hg : passes_gates env img byte_len = true) :
    ¬(img.width < 100 ∨ img.height < 100) ∧
    is_bad_aspect_ratio img.width img.height = false ∧
    is_low_color_variance env img = false ∧
    is_overcompressed byte_len img.width img.height = false := by
  simp only [passes_gates, Bool.and_eq_true, Bool.not_eq_true', decide_eq_false_iff_not] at hg
  tauto

/-- C7: `is_avatar_tag` classifies a tag as avatar exactly when it contains
`border-radius` together with `50%`, or a width/height value parsed by
`get_html_attr_val` (attribute form `attr="N`, then style form `attr: Npx`,
case-insensitive) is present and below 100; with the spec's concrete
examples, including that absence of both attributes never classifies as
avatar. -/
theorem c7_avatar_classification :
    (∀ t : String, is_avatar_tag t =
       ((containsSub "border-radius".data t.data && containsSub "50%".data t.data) ||
        ((match get_html_attr_val t "width" with
          | some n => decide (n < 100)
          | none => false) ||
         (match get_html_attr_val t "height" with
          | some n => decide (n < 100)
          | none => false)))) ∧
    is_avatar_tag "<img src=\"x\" width=\"40\">" = true ∧
    is_avatar_tag "<img src=\"x\" width=\"400\" height=\"300\">" = false ∧
    is_avatar_tag "<img style=\"border-radius:50%\">" = true ∧
    is_avatar_tag "<img src=\"x\" alt=\"plain\">" = false := by
  refine ⟨?_, by decide, by decide, by decide, by decide⟩
  intro t
  unfold is_avatar_tag
  by_cases hbr : (containsSub "border-radius".data t.data && containsSub "50%".data t.data) = true
  · simp [hbr]
  · rw [Bool.not_eq_true] at hbr
    simp [hbr]

/-- C7 witness: the general classification equation instantiated at the
`width="40"` example tag. -/
theorem c7_witness :
    is_avatar_tag "<img src=\"x\" width=\"40\">" =
      ((containsSub "border-radius".data "<img src=\"x\" width=\"40\">".data &&
        containsSub "50%".data "<img src=\"x\" width=\"40\">".data) ||
       ((match get_html_attr_val "<img src=\"x\" width=\"40\">" "width" with
         | some n => decide (n < 100)
         | none => false) ||
        (match get_html_attr_val "<img src=\"x\" width=\"40\">" "height" with
         | some n => decide (n < 100)
         | none => false))) :=
  c7_avatar_classification.1 "<img src=\"x\" width=\"40\">"

/-- The tag shape of the implicit percentage-width claim: a body image tag
whose width attribute is the decimal digits of `n` followed by `%`. -/
def c9tag (n : Nat) : String :=
  "<img src=\"u\" width=\"" ++ Nat.repr n ++ "%\">"

/-- C9: `get_html_attr_val` parses only the leading digits of the attribute
value, so a percentage width such as `width="50%"` is read as the bare
number; whenever that number is below 100 the tag is classified as avatar
and the body processor removes it outright, although a percentage is not a
pixel size. -/
theorem c9_percent_width_parsed_and_removed :
    (∀ n : Nat, n < 100 →
       get_html_attr_val (c9tag n) "width" = some n ∧
       is_avatar_tag (c9tag n) = true ∧
       ∀ thumb, body_img_processor thumb (c9tag n) "u" = BodyDecision.removed) ∧
    get_html_attr_val "<img src=\"u\" width=\"50%\">" "width" = some 50 := by
  have hball : ∀ n : Nat, n < 100 →
      get_html_attr_val (c9tag n) "width" = some n ∧ is_avatar_tag (c9tag n) = true := by
    decide
  refine ⟨?_, by decide⟩
  intro n hn
  obtain ⟨hparse, havatar⟩ := hball n hn
  exact ⟨hparse, havatar, fun thumb => by simp [body_img_processor, havatar]⟩

/-- C9 witness: the percentage tag `width="50%"` parses as 50, is
classified as avatar and is removed by the body processor. -/
theorem c9_witness :
    get_html_attr_val (c9tag 50) "width" = some 50 ∧
    is_avatar_tag (c9tag 50) = true ∧
    body_img_processor (fun _ => (none, none)) (c9tag 50) "u" = BodyDecision.removed := by
  obtain ⟨h1, h2, h3⟩ := c9_percent_width_parsed_and_removed.1 50 (by decide)
  exact ⟨h1, h2, h3 _⟩

/-- Helper: introduction form of `passes_gates`. -/
theorem passes_gates_intro
    (env : PipelineEnv) (img : Image) (byte_len : Nat)
    (h1 : ¬(img.width < 100 ∨ img.height < 100))
    (h2 : is_bad_aspect_ratio img.width img.height = false)
    (h3 : is_low_color_variance env img = false)
    (h4 : is_overcompressed byte_len img.width img.height = false) :
    passes_gates env img byte_len = true := by
  unfold passes_gates
  rw [h2, h3, h4]
  simp [h1]

/-- A 100-byte response body for concrete instantiations. -/
def contentOk : String := String.mk (List.replicate 100 'a')

theorem contentOk_length : contentOk.length = 100 := by decide

/-- Helper: a square 100×100 image has an acceptable aspect ratio. -/
theorem aspect_100_100_ok : is_bad_aspect_ratio 100 100 = false := by
  unfold is_bad_aspect_ratio
  norm_num

/-- Helper: 100 bytes over 100×100 pixels sits exactly on the 1/100
boundary, which is not strictly below the threshold. -/
theorem over_100_100_100_ok : is_overcompressed 100 100 100 = false := by
  unfold is_overcompressed
  norm_num

/-- A 100×100 RGB PNG with abstract pixel buffer "orig". -/
def imgOk : Image := ⟨"orig", "RGB", "PNG", 100, 100⟩

/-- Environment where everything up to the save step succeeds but
`img.save` raises (disk write error / encoder exception). -/
def envC3 : PipelineEnv :=
{ fetch := fun _ => FetchResult.ok contentOk,
  decode := fun _ => some imgOk,
  phash := fun _ => some "h1",
  lumStd := fun _ => some 50,
  toRGBA := id, toRGB := id, flattenAlpha := id,
  saveOk := false }

/-- Helper: the variance gate passes in `envC3` (std 50 ≥ 5). -/
theorem envC3_variance_ok : is_low_color_variance envC3 imgOk = false := by
  simp only [is_low_color_variance, envC3, imgOk]
  norm_num

/-- Helper: all gates pass for `envC3`'s decoded image. -/
theorem envC3_gates : passes_gates envC3 imgOk contentOk.length = true := by
  rw [contentOk_length]
  exact passes_gates_intro envC3 imgOk 100 (by decide) aspect_100_100_ok envC3_variance_ok
    over_100_100_100_ok

/-- C3 counterexample: an image that passes every quality gate and misses
the duplicate cache, but whose save step fails, yields `(absent, absent)` —
the network/decode-failure shape — and NOT the `(absent, sourceEncoding)`
quality-rejection shape the claim states.  The source's single
`try/except Exception` swallows the save exception after `orig_format` was
already known. -/
theorem c3_counterexample :
    envC3.saveOk = false ∧
    envC3.fetch "http://x/img" = FetchResult.ok contentOk ∧
    envC3.decode contentOk = some imgOk ∧
    passes_gates envC3 imgOk contentOk.length = true ∧
    is_duplicate envC3 imgOk "JPEG" [] = none ∧
    download_and_convert_thumbnail envC3 "u1" "http://x/img" "JPEG" [] =
      ⟨none, none, [], none⟩ := by
  refine ⟨rfl, rfl, rfl, envC3_gates, rfl, ?_⟩
  obtain ⟨h1, h2, h3, h4⟩ := passes_gates_elim envC3 imgOk contentOk.length envC3_gates
  rw [acquire_after_gates envC3 "u1" "http://x/img" "JPEG" [] contentOk imgOk rfl rfl
    h1 h2 h3 h4]
  rfl

/-- C3 amended: when an image passes all quality gates, is not a cache
duplicate, and the encode/persist step fails, `download_and_convert_thumbnail`
returns `(absent, absent)` — the same shape as a network or decode failure,
not the quality-rejection shape `(absent, sourceEncoding)`. -/
theorem c3_amended_save_failure_gives_absent_pair
    (env : PipelineEnv) (uuid url target : String) (cache : List (String × String))
    (content : String) (img : Image)
    (hf : env.fetch url = FetchResult.ok content)
    (hd : env.decode content = some img)
    (hg : passes_gates env img content.length = true)
    (hdup : is_duplicate env img target cache = none)
    (hsave : env.saveOk = false) :
    download_and_convert_thumbnail env uuid url target cache =
      ⟨none, none, cache, none⟩ := by
  obtain ⟨h1, h2, h3, h4⟩ := passes_gates_elim env img content.length hg
  rw [acquire_after_gates env uuid url target cache content img hf hd h1 h2 h3 h4, hdup]
  simp [encode_and_save, hsave]

/-- C3 witness: the amended statement instantiated in `envC3`. -/
theorem c3_witness :
    download_and_convert_thumbnail envC3 "u2" "http://x/other" "PNG" [] =
      ⟨none, none, [], none⟩ :=
  c3_amended_save_failure_gives_absent_pair envC3 "u2" "http://x/other" "PNG" []
    contentOk imgOk rfl rfl envC3_gates rfl rfl

/-- C5: (a) if the decoded image is rejected by any quality gate (size,
aspect ratio, color variance, over-compression), the call leaves the
perceptual-hash cache untouched; (b) if the duplicate lookup hits (a
non-empty cached name, per Python truthiness), the cached file identifier
is returned with the source label, the cache is unchanged and no file is
re-encoded or written. -/
theorem c5_cache_discipline
    (env : PipelineEnv) (uuid url target : String) (cache : List (String × String))
    (content : String) (img : Image) :
    ((env.fetch url = FetchResult.ok content → env.decode content = some img →
      ((img.width < 100 ∨ img.height < 100) ∨
       is_bad_aspect_ratio img.width img.height = true ∨
       is_low_color_variance env img = true ∨
       is_overcompressed content.length img.width img.height = true) →
      (download_and_convert_thumbnail env uuid url target cache).cache = cache)) ∧
    (∀ f, env.fetch url = FetchResult.ok content → env.decode content = some img →
      passes_gates env img content.length = true →
      is_duplicate env img target cache = some f → f ≠ "" →
      download_and_convert_thumbnail env uuid url target cache =
        ⟨some f, some img.format, cache, none⟩) := by
  constructor
  · intro hf hd hrej
    simp only [download_and_convert_thumbnail, hf, hd]
    by_cases hs : (img.width < 100 ∨ img.height < 100)
    · rw [if_pos hs]
    · rw [if_neg hs]
      by_cases h2 : is_bad_aspect_ratio img.width img.height = true
      · rw [if_pos h2]
      · rw [if_neg h2]
        by_cases h3 : is_low_color_variance env img = true
        · rw [if_pos h3]
        · rw [if_neg h3]
          by_cases h4 : is_overcompressed content.length img.width img.height = true
          · rw [if_pos h4]
          · rcases hrej with h | h | h | h
            · exact absurd h hs
            · exact absurd h h2
            · exact absurd h h3
            · exact absurd h h4
  · intro f hf hd hg hdup hne
    obtain ⟨h1, h2, h3, h4⟩ := passes_gates_elim env img content.length hg
    rw [acquire_after_gates env uuid url target cache content img hf hd h1 h2 h3 h4]
    simp only [hdup]
    rw [if_neg hne]

/-- C5 witness: a size-rejected image leaves the cache empty, and a cache
hit returns the previously stored name without writing. -/
theorem c5_witness :
    (download_and_convert_thumbnail envSmall "u1" "http://x/a" "PNG" []).cache = [] ∧
    download_and_convert_thumbnail envC3 "u3" "http://x/img" "JPEG"
        [("h1_JPEG", "old.jpg")] =
      ⟨some "old.jpg", some "PNG", [("h1_JPEG", "old.jpg")], none⟩ :=
  ⟨(c5_cache_discipline envSmall "u1" "http://x/a" "PNG" [] "bytes"
      ⟨"px", "RGB", "PNG", 50, 200⟩).1 rfl rfl (Or.inl (by decide)),
   (c5_cache_discipline envC3 "u3" "http://x/img" "JPEG" [("h1_JPEG", "old.jpg")]
      contentOk imgOk).2 "old.jpg" rfl rfl envC3_gates rfl (by decide)⟩

/-- The file extension chosen for a target encoding (step 6 of the source). -/
def target_ext (target_format : String) : String :=
  if target_format = "JPEG" then "jpg" else "png"

/-- Helper: a UUID-based filename `uuid ++ "." ++ ext` is never empty, so it
is truthy for the Python duplicate check. -/
theorem append_dot_ne_empty (a b : String) : a ++ "." ++ b ≠ "" := by
  intro h
  have h2 : (a ++ "." ++ b).length = 0 := by rw [h]; rfl
  simp [String.length_append] at h2
  exact absurd h2.1.2 (by decide)

/-- A 100×100 RGBA PNG whose hidden pixels differ from black, so alpha
flattening changes its perceptual hash. -/
def imgC4 : Image := ⟨"orig", "RGBA", "PNG", 100, 100⟩

/-- Environment for the dedup counterexample: both URLs fetch the same
bytes decoding to the same RGBA image; the perceptual hash of the decoded
buffer is "h1" but the hash of the alpha-flattened buffer is "h2". -/
def envC4 : PipelineEnv :=
{ fetch := fun _ => FetchResult.ok contentOk,
  decode := fun _ => some imgC4,
  phash := fun p => if p = "orig" then some "h1" else some "h2",
  lumStd := fun _ => some 50,
  toRGBA := id,
  toRGB := id,
  flattenAlpha := fun _ => "flat",
  saveOk := true }

/-- Helper: the variance gate passes in `envC4`. -/
theorem envC4_variance_ok : is_low_color_variance envC4 imgC4 = false := by
  simp only [is_low_color_variance, envC4, imgC4]
  norm_num

/-- Helper: all gates pass for `envC4`'s decoded image. -/
theorem envC4_gates : passes_gates envC4 imgC4 contentOk.length = true := by
  rw [contentOk_length]
  exact passes_gates_intro envC4 imgC4 100 (by decide) aspect_100_100_ok envC4_variance_ok
    over_100_100_100_ok

/-- C4 counterexample: two distinct URLs fetch identical bytes that decode
to the same image (hence equal perceptual hashes) with the same target
encoding "JPEG", and the first call saves a file — yet the second call
returns a different file identifier and writes a second file.  The cause:
`register_image_hash` is called on the image AFTER alpha flattening (hash
"h2"), while `is_duplicate` hashes the freshly decoded image (hash "h1"),
so the lookup misses. -/
theorem c4_counterexample :
    ("http://x/one" ≠ "http://x/two") ∧
    envC4.fetch "http://x/one" = FetchResult.ok contentOk ∧
    envC4.fetch "http://x/two" = FetchResult.ok contentOk ∧
    envC4.decode contentOk = some imgC4 ∧
    download_and_convert_thumbnail envC4 "u1" "http://x/one" "JPEG" [] =
      ⟨some "u1.jpg", some "PNG", [("h2_JPEG", "u1.jpg")], some "u1.jpg"⟩ ∧
    download_and_convert_thumbnail envC4 "u2" "http://x/two" "JPEG"
        [("h2_JPEG", "u1.jpg")] =
      ⟨some "u2.jpg", some "PNG", [("h2_JPEG", "u2.jpg"), ("h2_JPEG", "u1.jpg")],
        some "u2.jpg"⟩ := by
  obtain ⟨h1, h2, h3, h4⟩ := passes_gates_elim envC4 imgC4 contentOk.length envC4_gates
  refine ⟨by decide, rfl, rfl, rfl, ?_, ?_⟩
  · rw [acquire_after_gates envC4 "u1" "http://x/one" "JPEG" [] contentOk imgC4 rfl rfl
      h1 h2 h3 h4]
    rfl
  · rw [acquire_after_gates envC4 "u2" "http://x/two" "JPEG" [("h2_JPEG", "u1.jpg")]
      contentOk imgC4 rfl rfl h1 h2 h3 h4]
    rfl

/-- C4 amended: within one article scope (cache starting empty), if two
URLs decode to images with the same perceptual hash, the target encoding is
the same, both pass all gates, the save succeeds, AND the format conversion
preserves the first image's perceptual hash (the registration key is the
hash of the converted image, the lookup key the hash of the decoded one),
then the second call returns the first call's file identifier, leaves the
cache unchanged and writes no second file. -/
theorem c4_amended_dedup
    (env : PipelineEnv) (uuid1 uuid2 url1 url2 target : String)
    (content1 content2 : String) (img1 img2 : Image) (hsh : String)
    (hf1 : env.fetch url1 = FetchResult.ok content1)
    (hd1 : env.decode content1 = some img1)
    (hf2 : env.fetch url2 = FetchResult.ok content2)
    (hd2 : env.decode content2 = some img2)
    (hg1 : passes_gates env img1 content1.length = true)
    (hg2 : passes_gates env img2 content2.length = true)
    (hp1 : env.phash img1.pix = some hsh)
    (hp2 : env.phash img2.pix = some hsh)
    (hpc : env.phash (convert_for_target env img1 target).pix = some hsh)
    (hsave : env.saveOk = true) :
    download_and_convert_thumbnail env uuid1 url1 target [] =
      ⟨some (uuid1 ++ "." ++ target_ext target), some img1.format,
        [(hsh ++ "_" ++ target, uuid1 ++ "." ++ target_ext target)],
        some (uuid1 ++ "." ++ target_ext target)⟩ ∧
    download_and_convert_thumbnail env uuid2 url2 target
        [(hsh ++ "_" ++ target, uuid1 ++ "." ++ target_ext target)] =
      ⟨some (uuid1 ++ "." ++ target_ext target), some img2.format,
        [(hsh ++ "_" ++ target, uuid1 ++ "." ++ target_ext target)], none⟩ := by
  constructor
  · obtain ⟨h1, h2, h3, h4⟩ := passes_gates_elim env img1 content1.length hg1
    rw [acquire_after_gates env uuid1 url1 target [] content1 img1 hf1 hd1 h1 h2 h3 h4]
    have hdup1 : is_duplicate env img1 target [] = none := by
      simp [is_duplicate, hp1, cacheLookup]
    simp only [hdup1, encode_and_save, register_image_hash, hpc, hsave, target_ext,
      if_true]
  · obtain ⟨h1, h2, h3, h4⟩ := passes_gates_elim env img2 content2.length hg2
    rw [acquire_after_gates env uuid2 url2 target
      [(hsh ++ "_" ++ target, uuid1 ++ "." ++ target_ext target)] content2 img2 hf2 hd2
      h1 h2 h3 h4]
    have hdup2 : is_duplicate env img2 target
        [(hsh ++ "_" ++ target, uuid1 ++ "." ++ target_ext target)] =
        some (uuid1 ++ "." ++ target_ext target) := by
      simp [is_duplicate, hp2, cacheLookup]
    simp only [hdup2]
    rw [if_neg (append_dot_ne_empty uuid1 (target_ext target))]

/-- C4 witness: the amended statement instantiated in an environment where
conversion preserves the hash (an RGB image, so no flattening occurs). -/
def envC4w : PipelineEnv :=
{ fetch := fun _ => FetchResult.ok contentOk,
  decode := fun _ => some imgOk,
  phash := fun _ => some "h1",
  lumStd := fun _ => some 50,
  toRGBA := id,
  toRGB := id,
  flattenAlpha := id,
  saveOk := true }

/-- Helper: the variance gate passes in `envC4w`. -/
theorem envC4w_variance_ok : is_low_color_variance envC4w imgOk = false := by
  simp only [is_low_color_variance, envC4w, imgOk]
  norm_num

/-- Helper: all gates pass for `envC4w`'s decoded image. -/
theorem envC4w_gates : passes_gates envC4w imgOk contentOk.length = true := by
  rw [contentOk_length]
  exact passes_gates_intro envC4w imgOk 100 (by decide) aspect_100_100_ok
    envC4w_variance_ok over_100_100_100_ok

/-- C4 witness: with hash-preserving conversion, the second call reuses the
first call's file and writes nothing. -/
theorem c4_witness :
    download_and_convert_thumbnail envC4w "u1" "http://x/one" "JPEG" [] =
      ⟨some ("u1" ++ "." ++ target_ext "JPEG"), some "PNG",
        [("h1" ++ "_" ++ "JPEG", "u1" ++ "." ++ target_ext "JPEG")],
        some ("u1" ++ "." ++ target_ext "JPEG")⟩ ∧
    download_and_convert_thumbnail envC4w "u2" "http://x/two" "JPEG"
        [("h1" ++ "_" ++ "JPEG", "u1" ++ "." ++ target_ext "JPEG")] =
      ⟨some ("u1" ++ "." ++ target_ext "JPEG"), some "PNG",
        [("h1" ++ "_" ++ "JPEG", "u1" ++ "." ++ target_ext "JPEG")], none⟩ :=
  c4_amended_dedup envC4w "u1" "u2" "http://x/one" "http://x/two" "JPEG"
    contentOk contentOk imgOk imgOk "h1" rfl rfl rfl rfl
    envC4w_gates envC4w_gates rfl rfl rfl rfl

/-- An avatar-sized occurrence of URL "u" in the article body. -/
def tagA : String := "<img src=\"u\" width=\"40\">"

/-- A full-size (non-avatar) occurrence of the same URL "u". -/
def tagB : String := "<img src=\"u\" width=\"400\">"

/-- A body acquisition that succeeds (returns a saved JPEG name). -/
def thumbGood : String → Option String × Option String :=
  fun _ => (some "f.jpg", some "PNG")

/-- A body acquisition that is rejected after decode (absent id, present
label). -/
def thumbNoFile : String → Option String × Option String :=
  fun _ => (none, some "PNG")

/-- C6 counterexample: URL "u" has an avatar-sized occurrence, so it enters
the blacklist; yet its later non-avatar-sized occurrence `tagB` is NOT
suppressed from the body — `body_img_processor` re-applies `is_avatar_tag`
to each occurrence's own tag text and never consults the blacklist, so the
tag is kept (with a body mapping) when its download succeeds. -/
theorem c6_counterexample :
    "u" ∈ avatar_url_blacklist [(tagA, "u"), (tagB, "u")] ∧
    is_avatar_tag tagA = true ∧
    is_avatar_tag tagB = false ∧
    body_img_processor thumbGood tagB "u" = BodyDecision.keptMapped := by
  decide

/-- Helper: the fallback cover scan never selects a blacklisted URL. -/
theorem select_cover_fallback_not_blacklisted
    (thumb : String → Option String) (bl : List String) :
    ∀ (urls : List String) (u f : String),
      select_cover_fallback thumb bl urls = some (u, f) → u ∉ bl := by
  intro urls
  induction urls with
  | nil =>
    intro u f h
    simp [select_cover_fallback] at h
  | cons x rest ih =>
    intro u f h
    simp only [select_cover_fallback] at h
    by_cases hx : x ∈ bl
    · rw [if_pos hx] at h
      exact ih u f h
    · rw [if_neg hx] at h
      cases hth : thumb x with
      | some g =>
        simp only [hth, Option.some.injEq, Prod.mk.injEq] at h
        obtain ⟨rfl, rfl⟩ := h
        exact hx
      | none =>
        simp only [hth] at h
        exact ih u f h

/-- C6 amended: (1) a URL enters the avatar blacklist exactly when some
occurrence of it in the pre-scan satisfies the avatar predicate; (2) the
blacklist IS consulted before cover-image selection — both the og:image
path and the body fallback — so a blacklisted URL is never chosen as
cover; but (3) body processing does NOT consult the blacklist: it applies
the avatar predicate to each occurrence's own tag text, and removes a
non-avatar occurrence only on the download-based path (absent file id with
present source label). -/
theorem c6_blacklist_scope_amended :
    (∀ (ms : List (String × String)) (u : String),
       u ∈ avatar_url_blacklist ms ↔ ∃ t, (t, u) ∈ ms ∧ is_avatar_tag t = true) ∧
    (∀ (thumb : String → Option String) (og : Option String) (urls bl : List String)
       (u f : String), select_cover thumb og urls bl = some (u, f) → u ∉ bl) ∧
    (∀ (thumb : String → Option String × Option String) (full_tag img_url : String),
       is_avatar_tag full_tag = false →
       (body_img_processor thumb full_tag img_url = BodyDecision.removed ↔
          (thumb img_url).1 = none ∧ (thumb img_url).2 ≠ none)) := by
  refine ⟨?_, ?_, ?_⟩
  · intro ms u
    simp only [avatar_url_blacklist, List.mem_map, List.mem_filter]
    constructor
    · rintro ⟨⟨t, v⟩, ⟨hm, ha⟩, rfl⟩
      exact ⟨t, hm, ha⟩
    · rintro ⟨t, hm, ha⟩
      exact ⟨(t, u), ⟨hm, ha⟩, rfl⟩
  · intro thumb og urls bl u f h
    simp only [select_cover] at h
    cases og with
    | none =>
      exact select_cover_fallback_not_blacklisted thumb bl urls u f h
    | some v =>
      by_cases hv : v ∈ bl
      · simp only [if_pos hv] at h
        exact select_cover_fallback_not_blacklisted thumb bl urls u f h
      · simp only [if_neg hv] at h
        cases hth : thumb v with
        | some g =>
          simp only [hth, Option.some.injEq, Prod.mk.injEq] at h
          obtain ⟨rfl, rfl⟩ := h
          exact hv
        | none =>
          simp only [hth] at h
          exact select_cover_fallback_not_blacklisted thumb bl urls u f h
  · intro thumb full_tag img_url hna
    simp only [body_img_processor, hna, Bool.false_eq_true, if_false]
    rcases hth : thumb img_url with ⟨o1, o2⟩
    cases o1 with
    | some g => simp
    | none =>
      cases o2 with
      | some fmt => simp
      | none => simp

/-- C6 witness: the three amended parts at concrete inputs — "u" is
blacklisted from its avatar occurrence, a selected cover URL is not
blacklisted, and a non-avatar tag is removed from the body exactly on the
rejected-download path. -/
theorem c6_witness :
    ("u" ∈ avatar_url_blacklist [(tagA, "u")] ↔
       ∃ t, (t, "u") ∈ [(tagA, "u")] ∧ is_avatar_tag t = true) ∧
    ("v" ∉ ([] : List String)) ∧
    (body_img_processor thumbNoFile tagB "u" = BodyDecision.removed ↔
       (thumbNoFile "u").1 = none ∧ (thumbNoFile "u").2 ≠ none) :=
  ⟨c6_blacklist_scope_amended.1 [(tagA, "u")] "u",
   c6_blacklist_scope_amended.2.1 (fun _ => some "f.png") (some "v") [] [] "v" "f.png" rfl,
   c6_blacklist_scope_amended.2.2 thumbNoFile tagB "u" (by decide)⟩
